import Mathlib

/-!
Verification of the Resistance game engine (`src/resistance/game.go`).

The Go code is shallowly embedded: Go structs become Lean structures, Go
`map[string]T` values become association lists (`List (String × T)`) with
lookup/set/erase helpers mirroring map semantics, Go `int` arithmetic that can
go negative is carried out in `Int`, and functions that would panic or diverge
in Go return `Option` (`none` marks the panic/divergence, which is not a Go
return value). The random source `r.Intn` is modelled by consuming a stream of
naturals (`List Nat`), reduced modulo the bound exactly as `Intn` bounds its
result.
-/

namespace Resistance

/-- Go `State` constants from game.go. -/
inductive State where
  | STATE_IDLE
  | STATE_INITIALIZED
  | STATE_PICK
  | STATE_VOTING
  | STATE_MISSION
deriving DecidableEq, Repr

/-- Go `Role` constants from game.go. -/
inductive Role where
  | ROLE_SPY
  | ROLE_RESISTANCE
deriving DecidableEq, Repr

/-- Go `Player` struct. -/
structure Player where
  ID : String
  Name : String
  Role : Role
deriving DecidableEq, Repr

/-- Go `Mission` struct.  `Votes` is `map[string]bool` in Go, embedded as an
association list. -/
structure Mission where
  Round : Nat
  Members : List Player
  Success : Bool
  Votes : List (String × Bool)
  MinFail : Nat
deriving DecidableEq, Repr

/-- Go `Config` struct (the per-player-count round configuration). -/
structure Config where
  NPlayers : Nat
  NSpies : Nat
  NMembers : List Nat
  NFail : List Nat
  NOverview : List String
  NRounds : Nat
deriving DecidableEq, Repr

/-- Go `Game` struct (the fields the control loop mutates; channels and the
event handler are modelled separately). -/
structure Game where
  ID : String
  Players : List Player
  NPlayers : Nat
  State : State
  Round : Nat
  Picks : List (String × Player)
  VotingRound : Nat
  Votes : List (String × Bool)
  LeaderIndex : Int
  Missions : List Mission
  Config : Option Config
  spyWonByRejection : Bool
deriving DecidableEq, Repr

/-- Association-list lookup, modelling Go `m[k]` (with the `ok` flag as
`Option`). -/
def lookupA {α : Type} : List (String × α) → String → Option α
  | [], _ => none
  | (k, v) :: t, key => if k = key then some v else lookupA t key

/-- Association-list update, modelling Go `m[k] = v`. -/
def setA {α : Type} : List (String × α) → String → α → List (String × α)
  | [], key, v => [(key, v)]
  | (k, w) :: t, key, v =>
      if k = key then (k, v) :: t else (k, w) :: setA t key v

/-- Association-list removal, modelling Go `delete(m, k)`. -/
def eraseA {α : Type} : List (String × α) → String → List (String × α)
  | [], _ => []
  | (k, w) :: t, key => if k = key then t else (k, w) :: eraseA t key

/-- Go `Mission.HasMember`. -/
def Mission.HasMember (m : Mission) (playerID : String) : Bool :=
  m.Members.any fun member => member.ID = playerID

/-- Go `Mission.Execute`: counts `false` votes, sets `Success` to
`fail < MinFail` and returns it.  The returned pair is (mutated mission,
returned bool). -/
def Mission.Execute (m : Mission) : Mission × Bool :=
  let fail := m.Votes.countP fun kv => !kv.2
  let s := decide (fail < m.MinFail)
  ({ m with Success := s }, s)

/-- Go `Game.calculateVote`: fold over the recorded votes adding 1 per
approval and subtracting 1 per rejection, then subtract the number of players
who did not vote; majority iff the result is positive. -/
def Game.calculateVote (game : Game) : Bool :=
  let yes : Int :=
    game.Votes.foldl (fun acc kv => if kv.2 then acc + 1 else acc - 1) 0
  let yes2 : Int := yes - ((game.NPlayers : Int) - (game.Votes.length : Int))
  decide (yes2 > 0)

/-- Go `Game.SpyWin`. -/
def Game.SpyWin (game : Game) : Bool :=
  match game.Config with
  | none => false
  | some c =>
    if game.spyWonByRejection then true
    else
      let success := game.Missions.countP fun m => m.Success
      let fail := game.Missions.countP fun m => !m.Success
      let success2 : Int :=
        (success : Int) + ((c.NRounds : Int) - (game.Missions.length : Int))
      decide ((fail : Int) > success2)

/-- Go `Game.ResistanceWin`. -/
def Game.ResistanceWin (game : Game) : Bool :=
  match game.Config with
  | none => false
  | some c =>
    if game.spyWonByRejection then false
    else
      let success := game.Missions.countP fun m => m.Success
      let fail := game.Missions.countP fun m => !m.Success
      let fail2 : Int :=
        (fail : Int) + ((c.NRounds : Int) - (game.Missions.length : Int))
      decide ((success : Int) > fail2)

/-- Go `Game.Over`. -/
def Game.Over (game : Game) : Bool :=
  game.SpyWin || game.ResistanceWin

/-- Go `pickData`. -/
structure pickData where
  LeaderID : String
  PlayerID : String
deriving DecidableEq, Repr

/-- Go `voteData`. -/
structure voteData where
  PlayerID : String
  Vote : Bool
deriving DecidableEq, Repr

/-- Go `executeMissionData`. -/
structure executeMissionData where
  PlayerID : String
  Success : Bool
deriving DecidableEq, Repr

/-- The domain errors built with `fmt.Errorf` in game.go, one constructor per
construction site, carrying the formatted-in data. -/
inductive GameError where
  /-- "Cannot add more players" -/
  | cannotAddMorePlayers
  /-- "%s is already in the game" -/
  | alreadyInGame (name : String)
  /-- "Only players in the game can start the game" -/
  | onlyPlayersCanStart
  /-- "Number of players should be between %d and %d" -/
  | unsupportedPlayerCount
  /-- "You have no right to choose" -/
  | noRightToChoose
  /-- "Cannot choose players who are not in the game" -/
  | cannotChooseOutsiders
  /-- "You have no right to finish picking" -/
  | noRightToFinishPicking
  /-- "You must choose exactly %d people" -/
  | mustChooseExactly (n : Nat)
  /-- "You are not in the game" (vote) -/
  | notInGame
  /-- "No running mission" -/
  | noRunningMission
  /-- "You are not part of mission" -/
  | notPartOfMission
  /-- "Only players in the game can abort the game" -/
  | onlyPlayersCanAbort
deriving DecidableEq, Repr

/-- The EventHandler notifications a loop-side handler dispatches (each `go
game.OnX(...)` call in game.go), with the arguments the Go code passes. -/
inductive Event where
  | onAddPlayer (p : Player) (err : Option GameError)
  | onStart (p : Option Player) (c : Option Config) (err : Option GameError)
  | onPick (leader : Player) (p : Option Player) (err : Option GameError)
  | onUnpick (leader : Player) (p : Player) (err : Option GameError)
  | onDonePick (leader : Player) (err : Option GameError)
  | onVote (p : Player) (vote : Bool) (err : Option GameError)
  | onExecuteMission (p : Player) (success : Bool)
deriving DecidableEq, Repr

/-- Result of one loop-side command handler: the error returned on the
response channel, the updated game, and the notifications dispatched. -/
structure StepResult where
  err : Option GameError
  game : Game
  events : List Event
deriving DecidableEq, Repr

/-- Go `Game.FindPlayerByID`. -/
def Game.FindPlayerByID (game : Game) (id : String) : Option Player :=
  game.Players.find? fun player => player.ID = id

/-- Go `Game.leader` (`game.Players[game.LeaderIndex]`).  A negative or
out-of-range index panics in Go; modelled as `none`. -/
def Game.leader (game : Game) : Option Player :=
  if game.LeaderIndex < 0 then none
  else game.Players[game.LeaderIndex.toNat]?

/-- Go `Game.GetPicks` (the values of the `Picks` map). -/
def Game.GetPicks (game : Game) : List Player :=
  game.Picks.map fun kv => kv.2

/-- Go `Game.CurrentMission`: `nil` unless in the Mission state, otherwise the
last appended mission.  (Go indexes `Missions[len-1]` and would panic on an
empty slice; that case is unreachable while State is MISSION and is modelled
by `getLast?`.) -/
def Game.CurrentMission (game : Game) : Option Mission :=
  if game.State = State.STATE_MISSION then game.Missions.getLast? else none

/-- The `gameConfigMap` table from game.go. -/
def gameConfigMap : Nat → Option Config
  | 1 => some ⟨1, 1, [1, 1, 1, 1, 1], [1, 1, 1, 2, 1],
      ["1", "1", "1", "1*", "1"], 5⟩
  | 5 => some ⟨5, 2, [2, 3, 2, 3, 3], [1, 1, 1, 1, 1],
      ["2", "3", "2", "3", "3"], 5⟩
  | 6 => some ⟨6, 2, [2, 3, 4, 3, 4], [1, 1, 1, 1, 1],
      ["2", "3", "4", "3", "4"], 5⟩
  | 7 => some ⟨7, 3, [2, 3, 3, 4, 4], [1, 1, 1, 2, 1],
      ["2", "3", "3", "4*", "4"], 5⟩
  | 8 => some ⟨8, 3, [3, 4, 4, 5, 5], [1, 1, 1, 2, 1],
      ["3", "4", "4", "5*", "5"], 5⟩
  | 9 => some ⟨9, 3, [3, 4, 4, 5, 5], [1, 1, 1, 2, 1],
      ["3", "4", "4", "5*", "5"], 5⟩
  | 10 => some ⟨10, 4, [3, 4, 4, 5, 5], [1, 1, 1, 2, 1],
      ["3", "4", "4", "5*", "5"], 5⟩
  | _ => none

/-- Go `Game.addPlayer` (loop side).  `gameMaxPlayers` is `conf.GameMaxPlayers`. -/
def Game.addPlayer (game : Game) (gameMaxPlayers : Nat) (newPlayer : Player) :
    StepResult :=
  if game.NPlayers = gameMaxPlayers then
    ⟨some GameError.cannotAddMorePlayers, game,
      [Event.onAddPlayer newPlayer (some GameError.cannotAddMorePlayers)]⟩
  else
    match game.Players.find? fun player => player.ID = newPlayer.ID with
    | some player =>
        ⟨some (GameError.alreadyInGame player.Name), game,
          [Event.onAddPlayer newPlayer (some (GameError.alreadyInGame player.Name))]⟩
    | none =>
        ⟨none,
          { game with NPlayers := game.NPlayers + 1,
                      Players := game.Players ++ [newPlayer] },
          [Event.onAddPlayer newPlayer none]⟩

/-- A swap of two list positions, as Go `a[i], a[j] = a[j], a[i]` spelled with
a temporary in `randomizePlayers` (out-of-range indices would panic in Go;
modelled as a no-op). -/
def swapL (ps : List Player) (i j : Nat) : List Player :=
  match ps[i]?, ps[j]? with
  | some a, some b => (ps.set i b).set j a
  | _, _ => ps

/-- The loop of Go `Game.randomizePlayers`: for `i` from `NPlayers-1` down to
`0`, swap position `i` with position `r.Intn(i+1)`.  `k` is the number of
iterations left (the current `i` is `k-1`), and the random source is the
stream of naturals (reduced mod `i+1` exactly as `Intn(i+1)` bounds its
result; an exhausted stream stops early, which the infinite Go source never
does). -/
def shuffleAux : List Nat → Nat → List Player → List Player
  | _, 0, ps => ps
  | [], _ + 1, ps => ps
  | x :: xs, k + 1, ps => shuffleAux xs k (swapL ps k (x % (k + 1)))

/-- Go `Game.randomizePlayers`. -/
def Game.randomizePlayers (game : Game) (stream : List Nat) : Game :=
  { game with Players := shuffleAux stream game.NPlayers game.Players }

/-- The marking loop of Go `Game.assignRoles`: repeatedly draw
`x := r.Intn(nplayers)`; skip if `Players[x]` is already a spy, otherwise mark
it and decrement the remaining spy count.  In Go the loop runs until
`numSpy = 0`; here the random stream is finite, and `none` is returned when it
is exhausted first (or on an out-of-range index, which panics in Go). -/
def assignRolesLoop : List Nat → Nat → Nat → List Player → Option (List Player)
  | _, 0, _, ps => some ps
  | [], _ + 1, _, _ => none
  | x :: xs, n + 1, nplayers, ps =>
      match ps[x % nplayers]? with
      | none => none
      | some p =>
          if p.Role = Role.ROLE_SPY then assignRolesLoop xs (n + 1) nplayers ps
          else assignRolesLoop xs n nplayers
            (ps.set (x % nplayers) { p with Role := Role.ROLE_SPY })

/-- Go `Game.assignRoles`: reset everyone to Resistance, then mark
`Config.NSpies` random players as spies.  (Go dereferences `game.Config`,
panicking if nil; modelled as `none`.) -/
def Game.assignRoles (game : Game) (stream : List Nat) : Option Game :=
  match game.Config with
  | none => none
  | some c =>
      let ps0 := game.Players.map fun player =>
        { player with Role := Role.ROLE_RESISTANCE }
      (assignRolesLoop stream c.NSpies game.NPlayers ps0).map fun ps =>
        { game with Players := ps }

/-- Go `Game.start` (loop side).  `shufStream` and `roleStream` feed the two
uses of the random source. -/
def Game.start (game : Game) (starter : String)
    (shufStream roleStream : List Nat) : Option StepResult :=
  let p := game.FindPlayerByID starter
  if p.isNone && starter != "timer" then
    some ⟨some GameError.onlyPlayersCanStart, game,
      [Event.onStart none none (some GameError.onlyPlayersCanStart)]⟩
  else
    match gameConfigMap game.NPlayers with
    | none =>
        some ⟨some GameError.unsupportedPlayerCount, game,
          [Event.onStart p none (some GameError.unsupportedPlayerCount)]⟩
    | some c =>
        let g1 := Game.randomizePlayers { game with Config := some c } shufStream
        (g1.assignRoles roleStream).map fun g2 =>
          ⟨none, g2, [Event.onStart p (some c) none]⟩

/-- Go `Game.pick` (loop side). -/
def Game.pick (game : Game) (data : pickData) : Option StepResult :=
  match game.leader with
  | none => none
  | some ldr =>
      if data.LeaderID ≠ ldr.ID then
        some ⟨some GameError.noRightToChoose, game, []⟩
      else
        match lookupA game.Picks data.PlayerID with
        | some p =>
            some ⟨none, { game with Picks := eraseA game.Picks data.PlayerID },
              [Event.onUnpick ldr p none]⟩
        | none =>
            match game.FindPlayerByID data.PlayerID with
            | none =>
                some ⟨some GameError.cannotChooseOutsiders, game,
                  [Event.onPick ldr none (some GameError.cannotChooseOutsiders)]⟩
            | some p =>
                some ⟨none,
                  { game with Picks := setA game.Picks data.PlayerID p },
                  [Event.onPick ldr (some p) none]⟩

/-- Go `Game.donePick` (loop side).  (Go dereferences `game.Config` and
indexes `NMembers[Round-1]`; the panicking cases are modelled as `none`.) -/
def Game.donePick (game : Game) (leaderID : String) : Option StepResult :=
  match game.leader with
  | none => none
  | some ldr =>
      if leaderID ≠ ldr.ID then
        some ⟨some GameError.noRightToFinishPicking, game, []⟩
      else
        match game.Config with
        | none => none
        | some c =>
            match c.NMembers[game.Round - 1]? with
            | none => none
            | some npicks =>
                if game.Picks.length ≠ npicks then
                  some ⟨some (GameError.mustChooseExactly npicks), game,
                    [Event.onPick ldr none
                      (some (GameError.mustChooseExactly npicks))]⟩
                else some ⟨none, game, [Event.onDonePick ldr none]⟩

/-- Go `Game.vote` (loop side). -/
def Game.vote (game : Game) (data : voteData) : StepResult :=
  match game.FindPlayerByID data.PlayerID with
  | none => ⟨some GameError.notInGame, game, []⟩
  | some p =>
      ⟨none, { game with Votes := setA game.Votes data.PlayerID data.Vote },
        [Event.onVote p data.Vote none]⟩

/-- Go `Game.executeMission` (loop side).  A spy's submission overwrites the
mission's recorded vote for them (the current mission is the last element of
`Missions`, mutated in place in Go); a Resistance member's submission is
ignored, but the notification reports the submitted value in both cases. -/
def Game.executeMission (game : Game) (data : executeMissionData) :
    Option StepResult :=
  match game.CurrentMission with
  | none => some ⟨some GameError.noRunningMission, game, []⟩
  | some mission =>
      if mission.HasMember data.PlayerID then
        match game.FindPlayerByID data.PlayerID with
        | none => none
        | some player =>
            if player.Role = Role.ROLE_RESISTANCE then
              some ⟨none, game, [Event.onExecuteMission player data.Success]⟩
            else
              let mission2 :=
                { mission with
                    Votes := setA mission.Votes data.PlayerID data.Success }
              some ⟨none,
                { game with Missions := game.Missions.dropLast ++ [mission2] },
                [Event.onExecuteMission player data.Success]⟩
      else some ⟨some GameError.notPartOfMission, game, []⟩

/-- Go `Game.startMission`: members are the current picks, every member's
vote defaults to `true`, `MinFail` is `Config.NFail[Round-1]`, and the new
mission is appended.  (The Go nil/deref and index panics are modelled as
`none`.) -/
def Game.startMission (game : Game) : Option Game :=
  match game.Config with
  | none => none
  | some c =>
      match c.NFail[game.Round - 1]? with
      | none => none
      | some mf =>
          let missionMembers := game.GetPicks
          let missionVotes := missionMembers.map fun member => (member.ID, true)
          let newMission : Mission :=
            { Round := game.Round, Members := missionMembers, Success := false,
              Votes := missionVotes, MinFail := mf }
          some { game with Missions := game.Missions ++ [newMission] }

/-- The `mission:` label of `Game.daemon`: set the Mission state, then
`startMission`. -/
def enterMission (game : Game) : Option Game :=
  Game.startMission { game with State := State.STATE_MISSION }

/-- The `pick:` label of `Game.daemon`: enter the Pick state, increment
`VotingRound`, advance `LeaderIndex` by one and reduce it with Go's `%`
(truncated remainder, `Int.tmod`), and reset `Picks`. -/
def enterPick (game : Game) : Game :=
  { game with
      State := State.STATE_PICK,
      VotingRound := game.VotingRound + 1,
      LeaderIndex := Int.tmod (game.LeaderIndex + 1) (game.NPlayers : Int),
      Picks := [] }

/-- The three ways the `voting_done:` label of `Game.daemon` can continue. -/
inductive VotingOutcome where
  | toMission
  | spyWonByRejection
  | toPick
deriving DecidableEq, Repr

/-- The decision at the `voting_done:` label of `Game.daemon`:
majority → mission; otherwise, if `VotingRound` has reached
`conf.GameVotingRound` (`gameVotingRound` here), set the `spyWonByRejection`
latch and end the session (`cleanup` sets the Idle state); otherwise back to
pick. -/
def votingDone (game : Game) (gameVotingRound : Nat) : VotingOutcome × Game :=
  if game.calculateVote then (VotingOutcome.toMission, game)
  else if game.VotingRound = gameVotingRound then
    (VotingOutcome.spyWonByRejection,
      { game with spyWonByRejection := true, State := State.STATE_IDLE })
  else (VotingOutcome.toPick, game)

/-- The command requests the control loop can receive on its data channels. -/
inductive Command where
  | addPlayer (p : Player)
  | start (starter : String)
  | pick (d : pickData)
  | donePick (leader : String)
  | vote (d : voteData)
  | executeMission (d : executeMissionData)
deriving DecidableEq, Repr

/-- Dispatch of a command request to its loop-side handler, as performed by
the `select` branches of `Game.daemon`. -/
def runCommand (game : Game) (gameMaxPlayers : Nat)
    (shufStream roleStream : List Nat) : Command → Option StepResult
  | Command.addPlayer p => some (game.addPlayer gameMaxPlayers p)
  | Command.start s => game.start s shufStream roleStream
  | Command.pick d => game.pick d
  | Command.donePick l => game.donePick l
  | Command.vote d => some (game.vote d)
  | Command.executeMission d => game.executeMission d

/-- The request kinds that can reach `Game.daemon` through its data
channels. -/
inductive LoopRequest where
  | addPlayer
  | start
  | abort
  | pick
  | donePick
  | vote
  | executeMission
  | showPlayers
deriving DecidableEq, Repr

/-- How many values the `select` branch of `Game.daemon` that receives a
given request sends on that request's response channel, read off the source:
every branch replies exactly once (`game.cAddPlayer <- ...`,
`game.cStart <- ...`, `game.cPick <- ...`, `game.cDonePick <- ...`,
`game.cVote <- ...`, `game.cExecuteMission <- ...`,
`game.cShowPlayers <- nil`), except the abort branches, which in every phase
run `game.abort(aborter); return` without ever sending on `game.cAbort`. -/
def daemonResponseCount : LoopRequest → Nat
  | LoopRequest.abort => 0
  | LoopRequest.addPlayer => 1
  | LoopRequest.start => 1
  | LoopRequest.pick => 1
  | LoopRequest.donePick => 1
  | LoopRequest.vote => 1
  | LoopRequest.executeMission => 1
  | LoopRequest.showPlayers => 1

/-- Repeated mission submissions: fold `executeMission` over a list of
requests, insisting that every call is accepted (returns a nil error). -/
def runExecs : Game → List executeMissionData → Option Game
  | game, [] => some game
  | game, d :: ds =>
      match game.executeMission d with
      | some r => if r.err = none then runExecs r.game ds else none
      | none => none

lemma countP_succ_total (l : List Mission) :
    (l.countP fun m => m.Success) + (l.countP fun m => !m.Success) = l.length := by
  induction l with
  | nil => simp
  | cons m t ih =>
      cases h : m.Success <;> simp [List.countP_cons, h] <;> omega

lemma foldl_vote_count (l : List (String × Bool)) (a : Int) :
    l.foldl (fun acc kv => if kv.2 then acc + 1 else acc - 1) a
      = a + ((l.countP fun kv => kv.2) : Int)
          - ((l.countP fun kv => !kv.2) : Int) := by
  induction l generalizing a with
  | nil => simp
  | cons kv t ih =>
      cases h : kv.2 <;> simp [List.foldl_cons, h, ih] <;> omega

lemma countP_vote_total (l : List (String × Bool)) :
    (l.countP fun kv => kv.2) + (l.countP fun kv => !kv.2) = l.length := by
  induction l with
  | nil => simp
  | cons kv t ih =>
      cases h : kv.2 <;> simp [List.countP_cons, h] <;> omega

/-- C1: with a non-nil Config and the SpyWonByRejection latch unset, letting
S be the number of missions with Success=true, F the number with
Success=false, L=S+F and R=Config.NRounds, `SpyWin` returns true iff
F > S + (R − L) and `ResistanceWin` returns true iff S > F + (R − L). -/
theorem c1_win_arithmetic (game : Game) (c : Config)
    (hc : game.Config = some c) (hl : game.spyWonByRejection = false) :
    let S : Int := game.Missions.countP fun m => m.Success
    let F : Int := game.Missions.countP fun m => !m.Success
    let L : Int := S + F
    let R : Int := c.NRounds
    (game.SpyWin = true ↔ F > S + (R - L)) ∧
      (game.ResistanceWin = true ↔ S > F + (R - L)) := by
  intro S F L R
  have htot := countP_succ_total game.Missions
  have hlen : (game.Missions.length : Int) = S + F := by
    simp only [S, F]
    omega
  constructor
  · simp only [Game.SpyWin, hc, hl, if_neg Bool.false_ne_true, decide_eq_true_eq]
    constructor <;> intro h <;> omega
  · simp only [Game.ResistanceWin, hc, hl, if_neg Bool.false_ne_true,
      decide_eq_true_eq]
    constructor <;> intro h <;> omega

/-- Concrete instantiation of `c1_win_arithmetic`: R=5, two failed and one
successful mission (F=2, S=1, L=3), so SpyWin is false (2 ≤ 1+2) and
ResistanceWin is false (1 ≤ 2+2). -/
theorem c1_win_arithmetic_witness :
    ((Game.mk "g" [] 5 State.STATE_MISSION 4 [] 0 [] 0
        [⟨1, [], false, [], 1⟩, ⟨2, [], true, [], 1⟩, ⟨3, [], false, [], 1⟩]
        (some ⟨5, 2, [2, 3, 2, 3, 3], [1, 1, 1, 1, 1], [], 5⟩) false).SpyWin
        = true ↔ (2 : Int) > 1 + (5 - 3)) ∧
      ((Game.mk "g" [] 5 State.STATE_MISSION 4 [] 0 [] 0
        [⟨1, [], false, [], 1⟩, ⟨2, [], true, [], 1⟩, ⟨3, [], false, [], 1⟩]
        (some ⟨5, 2, [2, 3, 2, 3, 3], [1, 1, 1, 1, 1], [], 5⟩) false).ResistanceWin
        = true ↔ (1 : Int) > 2 + (5 - 3)) := by
  have h := c1_win_arithmetic
    (Game.mk "g" [] 5 State.STATE_MISSION 4 [] 0 [] 0
      [⟨1, [], false, [], 1⟩, ⟨2, [], true, [], 1⟩, ⟨3, [], false, [], 1⟩]
      (some ⟨5, 2, [2, 3, 2, 3, 3], [1, 1, 1, 1, 1], [], 5⟩) false)
    ⟨5, 2, [2, 3, 2, 3, 3], [1, 1, 1, 1, 1], [], 5⟩ rfl rfl
  simpa using h

/-- C3: in the Voting phase, `calculateVote` declares majority iff
approve − reject − silent > 0, where approve counts recorded `true` votes,
reject counts recorded `false` votes and silent = NPlayers − approve − reject
(non-voters count as rejections). -/
theorem c3_vote_majority (game : Game) (_h : game.State = State.STATE_VOTING) :
    let approve : Int := game.Votes.countP fun kv => kv.2
    let reject : Int := game.Votes.countP fun kv => !kv.2
    let silent : Int := (game.NPlayers : Int) - approve - reject
    (game.calculateVote = true ↔ approve - reject - silent > 0) := by
  intro approve reject silent
  have hfold := foldl_vote_count game.Votes 0
  have htot := countP_vote_total game.Votes
  have hlen : (game.Votes.length : Int) = approve + reject := by
    simp only [approve, reject]
    omega
  simp only [Game.calculateVote, hfold, decide_eq_true_eq]
  constructor <;> intro hx <;> [omega; omega]

/-- Concrete instantiation of `c3_vote_majority`: N=5, 3 approvals and 2
rejections give 3 − 2 − 0 = 1 > 0, majority. -/
theorem c3_vote_majority_witness :
    (Game.mk "g" [] 5 State.STATE_VOTING 1 []
        1 [("a", true), ("b", true), ("c", true), ("d", false), ("e", false)]
        0 [] none false).calculateVote = true ↔ (3 : Int) - 2 - (5 - 3 - 2) > 0 := by
  have h := c3_vote_majority
    (Game.mk "g" [] 5 State.STATE_VOTING 1 []
      1 [("a", true), ("b", true), ("c", true), ("d", false), ("e", false)]
      0 [] none false) rfl
  simpa using h

/-- C4: `Mission.Execute` sets and returns Success = true iff the number of
recorded false votes is strictly below MinFail. -/
theorem c4_mission_outcome (m : Mission) :
    ((m.Execute.1.Success = true ↔
        (m.Votes.countP fun kv => kv.2 = false) < m.MinFail) ∧
      m.Execute.2 = m.Execute.1.Success) := by
  constructor
  · simp only [Mission.Execute, decide_eq_true_eq]
    have : (m.Votes.countP fun kv => !kv.2)
        = m.Votes.countP fun kv => kv.2 = false := by
      apply List.countP_congr
      intro kv _
      cases kv.2 <;> simp
    rw [this]
  · simp [Mission.Execute]

/-- C2: the control loop must answer every received request with exactly one
value on the operation's response channel.  Reading the counts off
`Game.daemon`: every branch does reply exactly once, except the abort
branches, which never send on `cAbort` — so a caller blocked in `Game.Abort`
on `<-game.cAbort` is never released. -/
theorem c2_abort_branch_sends_nothing :
    daemonResponseCount LoopRequest.abort = 0 ∧
      daemonResponseCount LoopRequest.addPlayer = 1 ∧
      daemonResponseCount LoopRequest.start = 1 ∧
      daemonResponseCount LoopRequest.pick = 1 ∧
      daemonResponseCount LoopRequest.donePick = 1 ∧
      daemonResponseCount LoopRequest.vote = 1 ∧
      daemonResponseCount LoopRequest.executeMission = 1 ∧
      daemonResponseCount LoopRequest.showPlayers = 1 := by
  decide

/-- C5: when the vote has no majority and `VotingRound` has reached the
configured maximum, the voting-done step ends the session in SpyWin via the
`spyWonByRejection` latch: no mission is appended, and with the latch set
`SpyWin` is true and `ResistanceWin` false whatever `Missions` holds. -/
theorem c5_rejection_latch (game : Game) (gameVotingRound : Nat) (c : Config)
    (ms : List Mission)
    (hmaj : game.calculateVote = false)
    (hvr : game.VotingRound = gameVotingRound)
    (hc : game.Config = some c) :
    (votingDone game gameVotingRound).1 = VotingOutcome.spyWonByRejection ∧
      (votingDone game gameVotingRound).2.Missions = game.Missions ∧
      (votingDone game gameVotingRound).2.spyWonByRejection = true ∧
      Game.SpyWin
        { (votingDone game gameVotingRound).2 with Missions := ms } = true ∧
      Game.ResistanceWin
        { (votingDone game gameVotingRound).2 with Missions := ms } = false := by
  simp [votingDone, hmaj, hvr, Game.SpyWin, Game.ResistanceWin, hc]

/-- Players used in concrete instantiations. -/
def pAlice : Player := ⟨"A", "Alice", Role.ROLE_RESISTANCE⟩

def pBob : Player := ⟨"B", "Bob", Role.ROLE_SPY⟩

/-- The 5-player round configuration (gameConfigMap entry for 5). -/
def cfg5 : Config :=
  ⟨5, 2, [2, 3, 2, 3, 3], [1, 1, 1, 1, 1], ["2", "3", "2", "3", "3"], 5⟩

/-- A game at the end of a vote in which nobody voted (no majority), with
`VotingRound` at the maximum of 5. -/
def gVotingDone : Game :=
  ⟨"g", [pAlice, pBob], 5, State.STATE_VOTING, 1, [], 5, [], 0, [],
    some cfg5, false⟩

/-- Concrete instantiation of `c5_rejection_latch`: nobody voted, the fifth
voting round fails, and even with three successful missions substituted in,
the latch forces SpyWin. -/
theorem c5_rejection_latch_witness :
    (votingDone gVotingDone 5).1 = VotingOutcome.spyWonByRejection ∧
      (votingDone gVotingDone 5).2.Missions = gVotingDone.Missions ∧
      (votingDone gVotingDone 5).2.spyWonByRejection = true ∧
      Game.SpyWin
        { (votingDone gVotingDone 5).2 with
            Missions := [⟨1, [], true, [], 1⟩, ⟨2, [], true, [], 1⟩,
              ⟨3, [], true, [], 1⟩] } = true ∧
      Game.ResistanceWin
        { (votingDone gVotingDone 5).2 with
            Missions := [⟨1, [], true, [], 1⟩, ⟨2, [], true, [], 1⟩,
              ⟨3, [], true, [], 1⟩] } = false :=
  c5_rejection_latch gVotingDone 5 cfg5
    [⟨1, [], true, [], 1⟩, ⟨2, [], true, [], 1⟩, ⟨3, [], true, [], 1⟩]
    (by decide) rfl rfl

/-- C7: a Resistance member of the active mission calling ExecuteMission with
any boolean gets a nil error, leaves the game — in particular the mission's
recorded vote for them, which is `true` — unchanged, while the notification
reports the literally submitted value. -/
theorem c7_resistance_inert (game : Game) (pid : String) (p : Player)
    (m : Mission) (v : Bool)
    (hcm : game.CurrentMission = some m)
    (hmem : m.HasMember pid = true)
    (hfind : game.FindPlayerByID pid = some p)
    (hrole : p.Role = Role.ROLE_RESISTANCE)
    (hv : lookupA m.Votes pid = some true) :
    game.executeMission ⟨pid, v⟩ =
        some ⟨none, game, [Event.onExecuteMission p v]⟩ ∧
      ((game.executeMission ⟨pid, v⟩).map fun r =>
          r.game.CurrentMission.bind fun m2 => lookupA m2.Votes pid) =
        some (some true) := by
  have h1 : game.executeMission ⟨pid, v⟩ =
      some ⟨none, game, [Event.onExecuteMission p v]⟩ := by
    simp [Game.executeMission, hcm, hmem, hfind, hrole]
  refine ⟨h1, ?_⟩
  simp [h1, hcm, hv]

/-- A running mission with Alice (Resistance) and Bob (Spy) as members, both
votes at the creation default `true`. -/
def mAB : Mission := ⟨1, [pAlice, pBob], false, [("A", true), ("B", true)], 1⟩

/-- A game in the Mission state running `mAB`. -/
def gMission : Game :=
  ⟨"g", [pAlice, pBob], 2, State.STATE_MISSION, 1, [], 1, [], 0, [mAB],
    none, false⟩

/-- Concrete instantiation of `c7_resistance_inert`: Alice submits `false`,
the game is unchanged (her recorded vote stays `true`) and the notification
carries `false`. -/
theorem c7_resistance_inert_witness :
    gMission.executeMission ⟨"A", false⟩ =
        some ⟨none, gMission, [Event.onExecuteMission pAlice false]⟩ ∧
      ((gMission.executeMission ⟨"A", false⟩).map fun r =>
          r.game.CurrentMission.bind fun m2 => lookupA m2.Votes "A") =
        some (some true) :=
  c7_resistance_inert gMission "A" pAlice mAB false (by decide) (by decide)
    (by decide) rfl (by decide)

/-- C8: entering the Pick phase advances `LeaderIndex` by exactly one modulo
`NPlayers` and leaves it in `[0, NPlayers)`.  The hypotheses hold in every
reachable state: `NPlayers > 0` once a game has players, and `LeaderIndex`
starts at `-1` and only ever becomes a remainder thereafter. -/
theorem c8_leader_advance (game : Game)
    (h0 : 0 < game.NPlayers) (h1 : -1 ≤ game.LeaderIndex) :
    (enterPick game).LeaderIndex
        = (game.LeaderIndex + 1) % (game.NPlayers : Int) ∧
      0 ≤ (enterPick game).LeaderIndex ∧
      (enterPick game).LeaderIndex < (game.NPlayers : Int) := by
  have hnn : (0 : Int) ≤ game.LeaderIndex + 1 := by omega
  have hb : (0 : Int) ≤ (game.NPlayers : Int) := Int.natCast_nonneg _
  have hpos : (0 : Int) < (game.NPlayers : Int) := by exact_mod_cast h0
  have htm : (enterPick game).LeaderIndex
      = (game.LeaderIndex + 1) % (game.NPlayers : Int) := by
    simp only [enterPick]
    exact Int.tmod_eq_emod hnn hb
  refine ⟨htm, ?_, ?_⟩
  · rw [htm]
    exact Int.emod_nonneg _ (by omega)
  · rw [htm]
    exact Int.emod_lt_of_pos _ hpos

/-- Concrete instantiation of `c8_leader_advance` on `gVotingDone`
(5 players, LeaderIndex 0): the new leader index is (0+1) % 5 and lies in
[0, 5). -/
theorem c8_leader_advance_witness :
    (enterPick gVotingDone).LeaderIndex
        = (gVotingDone.LeaderIndex + 1) % ((gVotingDone.NPlayers : Nat) : Int) ∧
      0 ≤ (enterPick gVotingDone).LeaderIndex ∧
      (enterPick gVotingDone).LeaderIndex < ((gVotingDone.NPlayers : Nat) : Int) :=
  c8_leader_advance gVotingDone (by decide) (by decide)

/-- The number of players in `ps` holding role `ro`. -/
def countRole (ro : Role) (ps : List Player) : Nat :=
  ps.countP fun player => decide (player.Role = ro)

lemma countP_set_eq (q : Player → Bool) :
    ∀ (ps : List Player) (i : Nat) (p a : Player), ps[i]? = some p →
      (ps.set i a).countP q + (if q p then 1 else 0)
        = ps.countP q + (if q a then 1 else 0) := by
  intro ps
  induction ps with
  | nil => intro i p a h; simp at h
  | cons b t ih =>
      intro i p a h
      cases i with
      | zero =>
          simp only [List.getElem?_cons_zero, Option.some_inj] at h
          subst h
          cases hqa : q a <;> cases hqb : q b <;>
            simp [List.countP_cons, List.set_cons_zero, hqa, hqb]
      | succ j =>
          simp only [List.getElem?_cons_succ] at h
          have IH := ih j p a h
          cases hqb : q b <;> cases hqp : q p <;> cases hqa : q a <;>
            simp [List.countP_cons, hqb, hqp, hqa] at IH ⊢ <;> omega

lemma assignRolesLoop_spec (np : Nat) :
    ∀ (s : List Nat) (n : Nat) (ps qs : List Player),
      assignRolesLoop s n np ps = some qs →
      countRole Role.ROLE_SPY qs = countRole Role.ROLE_SPY ps + n ∧
        qs.length = ps.length := by
  intro s
  induction s with
  | nil =>
      intro n ps qs h
      cases n with
      | zero =>
          simp only [assignRolesLoop, Option.some_inj] at h
          subst h
          simp
      | succ n1 => simp [assignRolesLoop] at h
  | cons x xs ih =>
      intro n ps qs h
      cases n with
      | zero =>
          simp only [assignRolesLoop, Option.some_inj] at h
          subst h
          simp
      | succ n1 =>
          simp only [assignRolesLoop] at h
          split at h
          next heq => exact absurd h (by simp)
          next p heq =>
            split at h
            next hr =>
              have IH := ih (n1 + 1) ps qs h
              exact IH
            next hr =>
              have IH := ih n1
                (ps.set (x % np) { p with Role := Role.ROLE_SPY }) qs h
              have hcnt := countP_set_eq
                (fun player => decide (player.Role = Role.ROLE_SPY))
                ps (x % np) p { p with Role := Role.ROLE_SPY } heq
              simp [hr] at hcnt
              unfold countRole at IH ⊢
              simp only [List.length_set] at IH
              constructor
              · omega
              · exact IH.2

lemma countRole_spy_reset (ps : List Player) :
    countRole Role.ROLE_SPY
      (ps.map fun player => { player with Role := Role.ROLE_RESISTANCE }) = 0 := by
  induction ps with
  | nil => simp [countRole]
  | cons p t _ =>
      rw [List.map_cons]
      rw [countRole, List.countP_cons]
      simp [countRole]

lemma countRole_total (ps : List Player) :
    countRole Role.ROLE_SPY ps + countRole Role.ROLE_RESISTANCE ps
      = ps.length := by
  induction ps with
  | nil => simp [countRole]
  | cons p t ih =>
      cases hr : p.Role <;>
        simp [countRole, List.countP_cons, hr] at ih ⊢ <;> omega

lemma swapL_length (ps : List Player) (i j : Nat) :
    (swapL ps i j).length = ps.length := by
  unfold swapL
  cases hi : ps[i]? <;> cases hj : ps[j]? <;> simp

lemma shuffleAux_length :
    ∀ (s : List Nat) (k : Nat) (ps : List Player),
      (shuffleAux s k ps).length = ps.length := by
  intro s
  induction s with
  | nil => intro k ps; cases k <;> simp [shuffleAux]
  | cons x xs ih =>
      intro k ps
      cases k with
      | zero => simp [shuffleAux]
      | succ k1 => simp [shuffleAux, ih, swapL_length]

/-- C6: whenever a Start succeeds (the roster size is in the config table and
both the shuffle and the role dealing complete), exactly `Config.NSpies`
players end up with Role=Spy, the spy and resistance counts partition the
roster, and the roster size is unchanged. -/
theorem c6_roles_partition (game : Game) (starter : String)
    (shufStream roleStream : List Nat) (c : Config) (r : StepResult)
    (hc : gameConfigMap game.NPlayers = some c)
    (hs : game.start starter shufStream roleStream = some r)
    (hok : r.err = none) :
    countRole Role.ROLE_SPY r.game.Players = c.NSpies ∧
      countRole Role.ROLE_SPY r.game.Players
        + countRole Role.ROLE_RESISTANCE r.game.Players
        = r.game.Players.length ∧
      r.game.Players.length = game.Players.length := by
  unfold Game.start at hs
  by_cases hbad :
      ((game.FindPlayerByID starter).isNone && starter != "timer") = true
  · rw [if_pos hbad] at hs
    simp only [Option.some_inj] at hs
    rw [← hs] at hok
    simp at hok
  · rw [if_neg hbad, hc] at hs
    simp only [Game.randomizePlayers, Game.assignRoles] at hs
    cases hal : assignRolesLoop roleStream c.NSpies game.NPlayers
        ((shuffleAux shufStream game.NPlayers game.Players).map
          fun player => { player with Role := Role.ROLE_RESISTANCE }) with
    | none => rw [hal] at hs; simp at hs
    | some qs =>
        rw [hal] at hs
        simp only [Option.map, Option.some_inj] at hs
        have hspec := assignRolesLoop_spec game.NPlayers roleStream c.NSpies
          ((shuffleAux shufStream game.NPlayers game.Players).map
            fun player => { player with Role := Role.ROLE_RESISTANCE }) qs hal
        have hreset := countRole_spy_reset
          (shuffleAux shufStream game.NPlayers game.Players)
        have hlen1 : ((shuffleAux shufStream game.NPlayers game.Players).map
            fun player => { player with Role := Role.ROLE_RESISTANCE }).length
            = game.Players.length := by
          simp [shuffleAux_length]
        have hplayers : r.game.Players = qs := by rw [← hs]
        rw [hplayers]
        refine ⟨?_, countRole_total qs, ?_⟩
        · omega
        · omega

def pCarol : Player := ⟨"C", "Carol", Role.ROLE_RESISTANCE⟩

def pDave : Player := ⟨"D", "Dave", Role.ROLE_RESISTANCE⟩

def pEve : Player := ⟨"E", "Eve", Role.ROLE_RESISTANCE⟩

/-- A freshly initialized 5-player game, as `NewGame` plus five `addPlayer`
calls leave it. -/
def gInit5 : Game :=
  ⟨"g", [pAlice, pBob, pCarol, pDave, pEve], 5, State.STATE_INITIALIZED, 0,
    [], 0, [], -1, [], none, false⟩

/-- The result of a successful `start` of `gInit5` by Alice under concrete
random streams (role stream `[0, 1]` marks two distinct players as spies). -/
def rStart5 : StepResult :=
  (gInit5.start "A" [0, 0, 0, 0, 0] [0, 1]).getD ⟨none, gInit5, []⟩

/-- Concrete instantiation of `c6_roles_partition`: the 5-player start above
deals exactly `cfg5.NSpies = 2` spies and the roles partition the intact
5-player roster. -/
theorem c6_roles_partition_witness :
    countRole Role.ROLE_SPY rStart5.game.Players = cfg5.NSpies ∧
      countRole Role.ROLE_SPY rStart5.game.Players
        + countRole Role.ROLE_RESISTANCE rStart5.game.Players
        = rStart5.game.Players.length ∧
      rStart5.game.Players.length = gInit5.Players.length :=
  c6_roles_partition gInit5 "A" [0, 0, 0, 0, 0] [0, 1] cfg5 rStart5
    (by decide) (by decide) (by decide)

/-- The error argument a notification carries (nil for notifications without
an error parameter in the mission path). -/
def Event.errOf : Event → Option GameError
  | Event.onAddPlayer _ e => e
  | Event.onStart _ _ e => e
  | Event.onPick _ _ e => e
  | Event.onUnpick _ _ e => e
  | Event.onDonePick _ e => e
  | Event.onVote _ _ e => e
  | Event.onExecuteMission _ _ => none

/-- Whether some dispatched notification carries the error `e`. -/
def notifiesError (events : List Event) (e : GameError) : Bool :=
  events.any fun ev => ev.errOf = some e

/-- The errors game.go returns without dispatching any notification: the two
wrong-actor rejections of `pick`/`donePick`, the unknown-voter rejection of
`vote`, and both rejections of `executeMission`. -/
def silentError : GameError → Bool
  | GameError.noRightToChoose => true
  | GameError.noRightToFinishPicking => true
  | GameError.notInGame => true
  | GameError.noRunningMission => true
  | GameError.notPartOfMission => true
  | _ => false

/-- C9 (amended): whenever a loop-side handler returns an error, that error
is carried by a dispatched notification exactly when it is not one of the
silent rejections; the silent rejections (non-leader Pick/DonePick, Vote by a
non-player, ExecuteMission with no mission or by a non-member) dispatch no
notification at all. -/
theorem c9_error_notification (game : Game) (gameMaxPlayers : Nat)
    (shufStream roleStream : List Nat) (cmd : Command) (r : StepResult)
    (e : GameError)
    (hr : runCommand game gameMaxPlayers shufStream roleStream cmd = some r)
    (he : r.err = some e) :
    (silentError e = false → notifiesError r.events e = true) ∧
      (silentError e = true → r.events = []) := by
  cases cmd with
  | addPlayer p =>
      simp only [runCommand, Game.addPlayer] at hr
      split at hr
      · simp only [Option.some_inj] at hr
        subst hr
        simp only at he
        simp only [Option.some_inj] at he
        subst he
        simp [silentError, notifiesError, Event.errOf]
      · split at hr
        next player heq =>
          simp only [Option.some_inj] at hr
          subst hr
          simp only [Option.some_inj] at he
          subst he
          simp [silentError, notifiesError, Event.errOf]
        next heq =>
          simp only [Option.some_inj] at hr
          subst hr
          simp at he
  | start s =>
      simp only [runCommand, Game.start] at hr
      split at hr
      · simp only [Option.some_inj] at hr
        subst hr
        simp only [Option.some_inj] at he
        subst he
        simp [silentError, notifiesError, Event.errOf]
      · split at hr
        next heq =>
            simp only [Option.some_inj] at hr
            subst hr
            simp only [Option.some_inj] at he
            subst he
            simp [silentError, notifiesError, Event.errOf]
        next c heq =>
            cases hmap : Game.assignRoles
                (Game.randomizePlayers { game with Config := some c }
                  shufStream) roleStream with
            | none => rw [hmap] at hr; simp at hr
            | some g2 =>
                rw [hmap] at hr
                simp only [Option.map, Option.some_inj] at hr
                subst hr
                simp at he
  | pick d =>
      simp only [runCommand, Game.pick] at hr
      split at hr
      next => simp at hr
      next ldr heq =>
        split at hr
        · simp only [Option.some_inj] at hr
          subst hr
          simp only [Option.some_inj] at he
          subst he
          simp [silentError, notifiesError]
        · split at hr
          next pw heq2 =>
            simp only [Option.some_inj] at hr
            subst hr
            simp at he
          next heq2 =>
            split at hr
            next heq3 =>
              simp only [Option.some_inj] at hr
              subst hr
              simp only [Option.some_inj] at he
              subst he
              simp [silentError, notifiesError, Event.errOf]
            next pw heq3 =>
              simp only [Option.some_inj] at hr
              subst hr
              simp at he
  | donePick l =>
      simp only [runCommand, Game.donePick] at hr
      split at hr
      next => simp at hr
      next ldr heq =>
        split at hr
        · simp only [Option.some_inj] at hr
          subst hr
          simp only [Option.some_inj] at he
          subst he
          simp [silentError, notifiesError]
        · split at hr
          next => simp at hr
          next c heq2 =>
            split at hr
            next => simp at hr
            next npicks heq3 =>
              split at hr
              · simp only [Option.some_inj] at hr
                subst hr
                simp only [Option.some_inj] at he
                subst he
                simp [silentError, notifiesError, Event.errOf]
              · simp only [Option.some_inj] at hr
                subst hr
                simp at he
  | vote d =>
      simp only [runCommand, Game.vote] at hr
      split at hr
      next heq =>
        simp only [Option.some_inj] at hr
        subst hr
        simp only [Option.some_inj] at he
        subst he
        simp [silentError, notifiesError]
      next pw heq =>
        simp only [Option.some_inj] at hr
        subst hr
        simp at he
  | executeMission d =>
      simp only [runCommand, Game.executeMission] at hr
      split at hr
      next heq =>
        simp only [Option.some_inj] at hr
        subst hr
        simp only [Option.some_inj] at he
        subst he
        simp [silentError, notifiesError]
      next mission heq =>
        split at hr
        · split at hr
          next heq2 => simp at hr
          next player heq2 =>
            split at hr
            · simp only [Option.some_inj] at hr
              subst hr
              simp at he
            · simp only [Option.some_inj] at hr
              subst hr
              simp at he
        · simp only [Option.some_inj] at hr
          subst hr
          simp only [Option.some_inj] at he
          subst he
          simp [silentError, notifiesError]

/-- C9 counterexample to the claim as stated: in `gVotingDone`, a Vote by the
unknown player id "ghost" returns the not-found error, yet no notification
carrying that error (indeed none at all) is dispatched. -/
theorem c9_vote_error_not_notified :
    (gVotingDone.vote ⟨"ghost", true⟩).err = some GameError.notInGame ∧
      notifiesError (gVotingDone.vote ⟨"ghost", true⟩).events
        GameError.notInGame = false ∧
      (gVotingDone.vote ⟨"ghost", true⟩).events = [] := by
  decide

/-- Concrete instantiation of `c9_error_notification`: adding a sixth player
to a full 5-player game (GameMaxPlayers = 5) returns the capacity error and a
notification carrying it. -/
theorem c9_error_notification_witness :
    notifiesError (Game.addPlayer gInit5 5 ⟨"F", "Fred", Role.ROLE_RESISTANCE⟩).events
      GameError.cannotAddMorePlayers = true :=
  (c9_error_notification gInit5 5 [] []
      (Command.addPlayer ⟨"F", "Fred", Role.ROLE_RESISTANCE⟩)
      (Game.addPlayer gInit5 5 ⟨"F", "Fred", Role.ROLE_RESISTANCE⟩)
      GameError.cannotAddMorePlayers (by decide) (by decide)).1 (by decide)

lemma lookupA_setA_self {α : Type} (l : List (String × α)) (k : String)
    (v : α) : lookupA (setA l k v) k = some v := by
  induction l with
  | nil => simp [setA, lookupA]
  | cons kv t ih =>
      by_cases hk : kv.1 = k
      · cases kv
        simp_all [setA, lookupA]
      · cases kv
        simp_all [setA, lookupA]

lemma currentMission_some {game : Game} {m : Mission}
    (h : game.CurrentMission = some m) :
    game.State = State.STATE_MISSION ∧ game.Missions.getLast? = some m := by
  unfold Game.CurrentMission at h
  by_cases hst : game.State = State.STATE_MISSION
  · rw [if_pos hst] at h
    exact ⟨hst, h⟩
  · rw [if_neg hst] at h
    simp at h

lemma executeMission_spy_step (game : Game) (pid : String) (p : Player)
    (m : Mission) (v : Bool)
    (hcm : game.CurrentMission = some m)
    (hmem : m.HasMember pid = true)
    (hfind : game.FindPlayerByID pid = some p)
    (hrole : p.Role = Role.ROLE_SPY) :
    game.executeMission ⟨pid, v⟩ =
      some ⟨none,
        { game with Missions := game.Missions.dropLast ++
            [{ m with Votes := setA m.Votes pid v }] },
        [Event.onExecuteMission p v]⟩ := by
  simp [Game.executeMission, hcm, hmem, hfind, hrole]

lemma runExecs_spy (pid : String) (p : Player)
    (hrole : p.Role = Role.ROLE_SPY) :
    ∀ (subs : List Bool) (game : Game) (m : Mission) (w : Bool),
      game.CurrentMission = some m → m.HasMember pid = true →
      game.FindPlayerByID pid = some p → lookupA m.Votes pid = some w →
      (runExecs game (subs.map fun b => ⟨pid, b⟩)).isSome = true ∧
        ((runExecs game (subs.map fun b => ⟨pid, b⟩)).bind fun g2 =>
            g2.CurrentMission.bind fun m2 => lookupA m2.Votes pid)
          = some (subs.getLast?.getD w) := by
  intro subs
  induction subs with
  | nil =>
      intro game m w hcm hmem hfind hv
      simp [runExecs, hcm, hv]
  | cons b bs ih =>
      intro game m w hcm hmem hfind hv
      have hstep := executeMission_spy_step game pid p m b hcm hmem hfind hrole
      have hst := (currentMission_some hcm).1
      have hcm1 : ({ game with Missions := game.Missions.dropLast ++
          [{ m with Votes := setA m.Votes pid b }] } : Game).CurrentMission
          = some { m with Votes := setA m.Votes pid b } := by
        simp [Game.CurrentMission, hst, List.getLast?_concat]
      have hmem1 : ({ m with Votes := setA m.Votes pid b } : Mission).HasMember
          pid = true := hmem
      have hfind1 : ({ game with Missions := game.Missions.dropLast ++
          [{ m with Votes := setA m.Votes pid b }] } : Game).FindPlayerByID pid
          = some p := hfind
      have hv1 : lookupA (setA m.Votes pid b) pid = some b :=
        lookupA_setA_self m.Votes pid b
      have IH := ih
        { game with Missions := game.Missions.dropLast ++
            [{ m with Votes := setA m.Votes pid b }] }
        { m with Votes := setA m.Votes pid b } b hcm1 hmem1 hfind1 hv1
      have hrun : runExecs game ((b :: bs).map fun x => ⟨pid, x⟩)
          = runExecs
              { game with Missions := game.Missions.dropLast ++
                  [{ m with Votes := setA m.Votes pid b }] }
              (bs.map fun x => ⟨pid, x⟩) := by
        simp [runExecs, hstep]
      have hlast : (b :: bs).getLast?.getD w = bs.getLast?.getD b := by
        cases bs with
        | nil => simp
        | cons c t =>
            rw [List.getLast?_cons_cons]
            rw [List.getLast?_eq_getLast (c :: t) (by simp)]
            simp
      constructor
      · rw [hrun]
        exact IH.1
      · rw [hrun, IH.2, hlast]

/-- C10: while a mission is running, a spy member may submit any number of
times; every call is accepted, and the mission's recorded vote for them ends
at the most recently submitted value — or stays at the creation default
`true` when no call is made. -/
theorem c10_spy_last_write (game : Game) (pid : String) (p : Player)
    (m : Mission) (subs : List Bool)
    (hcm : game.CurrentMission = some m)
    (hmem : m.HasMember pid = true)
    (hfind : game.FindPlayerByID pid = some p)
    (hrole : p.Role = Role.ROLE_SPY)
    (hv0 : lookupA m.Votes pid = some true) :
    (runExecs game (subs.map fun b => ⟨pid, b⟩)).isSome = true ∧
      ((runExecs game (subs.map fun b => ⟨pid, b⟩)).bind fun g2 =>
          g2.CurrentMission.bind fun m2 => lookupA m2.Votes pid)
        = some (subs.getLast?.getD true) :=
  runExecs_spy pid p hrole subs game m true hcm hmem hfind hv0

/-- Concrete instantiation of `c10_spy_last_write`: Bob (Spy) submits
`false`, then `true`, then `false`; all three calls are accepted and his
recorded vote ends at `false`. -/
theorem c10_spy_last_write_witness :
    (runExecs gMission ([false, true, false].map fun b => ⟨"B", b⟩)).isSome
        = true ∧
      ((runExecs gMission ([false, true, false].map fun b => ⟨"B", b⟩)).bind
          fun g2 => g2.CurrentMission.bind fun m2 => lookupA m2.Votes "B")
        = some ([false, true, false].getLast?.getD true) :=
  c10_spy_last_write gMission "B" pBob mAB [false, true, false] (by decide)
    (by decide) (by decide) rfl (by decide)

end Resistance
